import Mathlib

/-!
Verification of the SIH2025 location-capture system.

The repository has two sides:
* a Node/Express server exposing `POST /api/submit-location`, which
  validates the request body (`crate_int_id` truthy, `location.latitude`
  and `location.longitude` of JavaScript type "number") and answers
  400 or 200;
* a React client (`src/frontend/src/App.jsx`) containing
  `isValidCrateId`, the retrying `sendLocation` routine, and a
  `pagehide` handler that is supposed to flush the last captured
  position as a beacon.

The embedding below models JavaScript values (with truthiness and
`typeof`-number), the server handler, and the client routines.  The
retry loop is embedded with explicit fuel (`retries + 1` suffices, since
each iteration increments `attempt` by one) so that every definition is
executable.  Thrown transport errors are modelled explicitly
(`FetchOutcome.netError`); a second semantics `sendLoopE` keeps the
possibility of an uncaught exception in an `Except` and is proved to
always return `ok`.
-/

namespace LocationCapture

/-! The JavaScript value model -/

/-- A JavaScript number: either `NaN` or an ordinary numeric value
(modelled as a rational).  `typeof NaN` is `"number"`, but `NaN` is
falsy, so the two cases must be distinguished. -/
inductive JsNum where
  | nan : JsNum
  | val (q : ℚ) : JsNum
deriving DecidableEq

/-- A JSON-parseable JavaScript value, as `express.json()` delivers it in
`req.body`.  Objects are finite association lists of fields. -/
inductive JsValue where
  | undefined : JsValue
  | null : JsValue
  | boolean (b : Bool) : JsValue
  | number (n : JsNum) : JsValue
  | string (s : String) : JsValue
  | object (fields : List (String × JsValue)) : JsValue

/-- JavaScript truthiness: `undefined`, `null`, `false`, `0`, `NaN` and
`""` are falsy; every other value (in particular every object) is
truthy. -/
def truthy : JsValue → Bool
  | .undefined => false
  | .null => false
  | .boolean b => b
  | .number .nan => false
  | .number (.val q) => q ≠ 0
  | .string s => s ≠ ""
  | .object _ => true

/-- Property access `v.k` as it behaves on the values reachable in the
handler: field lookup on objects, `undefined` on every non-object
(primitives own none of the fields looked up here).  The handler only
dereferences `location` after checking it is truthy, so the
null/undefined throw case is unreachable in the modelled paths. -/
def getField (v : JsValue) (k : String) : JsValue :=
  match v with
  | .object fields => ((fields.lookup k).getD JsValue.undefined)
  | _ => JsValue.undefined

/-- The check `typeof v === "number"`. -/
def isNumber : JsValue → Bool
  | .number _ => true
  | _ => false

/-! The server handler

`app.post("/api/submit-location", ...)` destructures
`{ crate_int_id, location }` from the body, rejects a falsy
`crate_int_id` with 400, rejects a falsy `location` or non-number
`latitude`/`longitude` with 400, and otherwise answers
`200 { ok: true }`. -/

/-- Response body `{ error: msg }`. -/
def errorBody (msg : String) : JsValue :=
  JsValue.object [("error", JsValue.string msg)]

/-- Response body `{ ok: true }`. -/
def okBody : JsValue :=
  JsValue.object [("ok", JsValue.boolean true)]

/-- The `POST /api/submit-location` handler: HTTP status and JSON body. -/
def submitLocation (body : JsValue) : Nat × JsValue :=
  let crate_int_id := getField body "crate_int_id"
  let location := getField body "location"
  if truthy crate_int_id = false then
    (400, errorBody "missing crate_int_id")
  else if truthy location = false
      || isNumber (getField location "latitude") = false
      || isNumber (getField location "longitude") = false then
    (400, errorBody "invalid location")
  else
    (200, okBody)

/-! The client submission routine

`sendLocation(payload, { retries = 3 })` in `App.jsx`:

* `attempt` starts at `0`, `lastErr` at `null`,
  `backoff = (n) => 500 * Math.pow(2, n)`;
* while `attempt <= retries`: `fetch` the endpoint; on a 2xx response
  return `{ ok: true, status }`; on another response record
  `HTTP <status> <text>` as `lastErr` and `break` when `400 <= status
  < 500`; on a thrown transport error record it as `lastErr`; then
  `attempt++` and wait `backoff(attempt)` milliseconds;
* after the loop return `{ ok: false, error: lastErr }`.

The transport is a function from the attempt index to its outcome; a
thrown error is the `netError` case.  The trace records the result, the
number of POST attempts performed and the list of waits (in ms) in the
order they happen. -/

/-- Outcome of one `fetch` call: an HTTP response (with the text read
from its body), or a thrown transport error. -/
inductive FetchOutcome where
  | response (status : Nat) (text : String) : FetchOutcome
  | netError (msg : String) : FetchOutcome

/-- The value `sendLocation` resolves with: `{ ok: true, status }` or
`{ ok: false, error: lastErr }` (the error is `null` when no attempt was
made). -/
inductive SendResult where
  | success (status : Nat) : SendResult
  | failure (lastErr : Option String) : SendResult
deriving DecidableEq

/-- Execution trace of `sendLocation`: final result, number of POST
attempts performed, and the performed waits in milliseconds. -/
structure SendTrace where
  result : SendResult
  attempts : Nat
  delays : List Nat
deriving DecidableEq

/-- The schedule `backoff = (n) => 500 * Math.pow(2, n)`. -/
def backoff (n : Nat) : Nat := 500 * 2 ^ n

/-- The recorded error ``HTTP ${res.status} ${text}``. -/
def httpError (status : Nat) (text : String) : String :=
  "HTTP " ++ toString status ++ " " ++ text

/-- The `while (attempt <= retries)` loop, with explicit fuel.  Each
iteration increments `attempt`, so fuel `retries + 1 - attempt` is
exact: fuel `0` coincides with the loop exit `attempt > retries`. -/
def sendLoop (transport : Nat → FetchOutcome) (retries : Nat) :
    Nat → Nat → Option String → SendTrace
  | 0, _, lastErr => ⟨SendResult.failure lastErr, 0, []⟩
  | fuel + 1, attempt, lastErr =>
    if attempt ≤ retries then
      match transport attempt with
      | .response status text =>
        if 200 ≤ status ∧ status < 300 then
          ⟨SendResult.success status, 1, []⟩
        else if 400 ≤ status ∧ status < 500 then
          ⟨SendResult.failure (some (httpError status text)), 1, []⟩
        else
          let rest := sendLoop transport retries fuel (attempt + 1)
            (some (httpError status text))
          ⟨rest.result, rest.attempts + 1, backoff (attempt + 1) :: rest.delays⟩
      | .netError msg =>
          let rest := sendLoop transport retries fuel (attempt + 1) (some msg)
          ⟨rest.result, rest.attempts + 1, backoff (attempt + 1) :: rest.delays⟩
    else ⟨SendResult.failure lastErr, 0, []⟩

/-- Entry point `sendLocation` with the given retry bound
(`retries = 3` by default in the source). -/
def sendLocation (transport : Nat → FetchOutcome) (retries : Nat) : SendTrace :=
  sendLoop transport retries (retries + 1) 0 none

/-! Exception-level semantics

In the source, `fetch` can throw; the `try/catch` inside the loop is the
only handler.  `sendLoopE` keeps a potential uncaught exception as
`Except.error`: the `try` block either finishes the call
(`Sum.inl`: the 2xx `return` or the 4xx `break`) or falls through to the
`attempt++` / wait with a new `lastErr` (`Sum.inr`), the `catch` clause
turning a thrown error into the same fall-through. -/

/-- One `fetch`, with the throw explicit. -/
def fetchE (transport : Nat → FetchOutcome) (n : Nat) :
    Except String (Nat × String) :=
  match transport n with
  | .response status text => Except.ok (status, text)
  | .netError msg => Except.error msg

/-- The loop with uncaught exceptions tracked in `Except`. -/
def sendLoopE (transport : Nat → FetchOutcome) (retries : Nat) :
    Nat → Nat → Option String → Except String SendTrace
  | 0, _, lastErr => Except.ok ⟨SendResult.failure lastErr, 0, []⟩
  | fuel + 1, attempt, lastErr =>
    if attempt ≤ retries then
      match
        (match fetchE transport attempt with
          | Except.ok (status, text) =>
            if 200 ≤ status ∧ status < 300 then
              Sum.inl (SendTrace.mk (SendResult.success status) 1 [])
            else if 400 ≤ status ∧ status < 500 then
              Sum.inl ⟨SendResult.failure (some (httpError status text)), 1, []⟩
            else Sum.inr (some (httpError status text))
          | Except.error msg => Sum.inr (some msg)) with
      | Sum.inl done => Except.ok done
      | Sum.inr newErr =>
        match sendLoopE transport retries fuel (attempt + 1) newErr with
        | Except.ok rest =>
            Except.ok ⟨rest.result, rest.attempts + 1,
              backoff (attempt + 1) :: rest.delays⟩
        | Except.error e => Except.error e
    else Except.ok ⟨SendResult.failure lastErr, 0, []⟩

/-- Entry point in the exception-level semantics. -/
def sendLocationE (transport : Nat → FetchOutcome) (retries : Nat) :
    Except String SendTrace :=
  sendLoopE transport retries (retries + 1) 0 none

/-! The client identifier validator

```
function isValidCrateId(id) {
  if (!id) return false;
  return /^\d+$/.test(id);
}
```

The argument is a string or `null` (the app passes the query-parameter
string, defaulted to `""`); `null` and `""` are falsy, and the regular
expression `^\d+$` matches exactly the non-empty strings of ASCII
digits. -/

/-- The validator `isValidCrateId`; `none` models `null`. -/
def isValidCrateId : Option String → Bool
  | none => false
  | some s => if s = "" then false else s.data.all Char.isDigit

/-! The pagehide flush in `App`

The effect (`useEffect(..., [])`, run once after the first render)
registers

```
const handleUnload = () => {
  if (!coords) return;
  const payload = { crate_int_id: crateId.current, location: coords };
  ... navigator.sendBeacon(url, blob) ...
};
window.addEventListener("pagehide", handleUnload);
```

Because the effect has an empty dependency list, the `coords` the
closure reads is the `const` of the render in which the effect ran —
the initial `useState(null)` value — and later `setCoords` calls create
new state for new renders without re-running the effect.  The model
therefore keeps two fields: the current React state, and the value the
registered closure captured. -/

/-- A captured position, as built from `pos.coords` (geolocation) or
from the manual form.  Nullable metadata is `Option`. -/
structure Coords where
  latitude : ℚ
  longitude : ℚ
  accuracy : Option ℚ
  altitude : Option ℚ
  heading : Option ℚ
  speed : Option ℚ
  timestamp : ℚ
deriving DecidableEq

/-- The beacon payload `{ crate_int_id, location }`. -/
structure BeaconPayload where
  crate_int_id : String
  location : Coords
deriving DecidableEq

/-- The handler `handleUnload`, as a function of the `coords` value the closure
captured: `if (!coords) return;` sends nothing, otherwise it beacons the
payload. -/
def handleUnload (capturedCoords : Option Coords) (crateId : String) :
    Option BeaconPayload :=
  match capturedCoords with
  | none => none
  | some c => some ⟨crateId, c⟩

/-- The `coords`-related state of a mounted `App`: the current React
state and the value captured by the registered `pagehide` closure. -/
structure AppState where
  coords : Option Coords
  registeredCapture : Option Coords
deriving DecidableEq

/-- At mount, `useState(null)` and no handler yet. -/
def mountApp : AppState := ⟨none, none⟩

/-- The effect runs (once, after the first render) and registers
`handleUnload`, whose closure captures the then-current `coords`. -/
def runEffect (s : AppState) : AppState :=
  { s with registeredCapture := s.coords }

/-- A `setCoords(p)` call (geolocation success or manual submit): new current
state; the registered closure is untouched (empty dependency list, the
effect does not re-run). -/
def setCoords (s : AppState) (p : Coords) : AppState :=
  { s with coords := some p }

/-- What the `pagehide` event sends: `handleUnload` runs on its captured
`coords`. -/
def pagehide (s : AppState) (crateId : String) : Option BeaconPayload :=
  handleUnload s.registeredCapture crateId

/-- The app after mount, the effect, and any sequence of captured
positions. -/
def appAfterCaptures (ps : List Coords) : AppState :=
  ps.foldl setCoords (runEffect mountApp)

/-! Theorems about the server handler -/

/-- C4: for every request body whose `crate_int_id` field is absent or
falsy, `POST /api/submit-location` responds HTTP 400 with the JSON error
body, and in particular never 200.  (An absent field destructures to
`undefined`, which is falsy, so the hypothesis covers both cases.) -/
theorem C4_missing_identifier_rejected (body : JsValue)
    (h : truthy (getField body "crate_int_id") = false) :
    submitLocation body = (400, errorBody "missing crate_int_id") ∧
    (submitLocation body).1 ≠ 200 := by
  constructor <;> simp [submitLocation, h]

/-- Witness for C4: the empty object has no `crate_int_id`, and the
server rejects it with 400. -/
theorem C4_witness :
    submitLocation (JsValue.object []) = (400, errorBody "missing crate_int_id") ∧
    (submitLocation (JsValue.object [])).1 ≠ 200 :=
  C4_missing_identifier_rejected (JsValue.object []) rfl

/-- C5: for every request body with a truthy `crate_int_id` where
`location` is absent, or `location.latitude` or `location.longitude` is
not of JavaScript type "number", the handler responds HTTP 400 with the
JSON error body, never 200. -/
theorem C5_invalid_location_rejected (body : JsValue)
    (hid : truthy (getField body "crate_int_id") = true)
    (hloc : getField body "location" = JsValue.undefined ∨
      isNumber (getField (getField body "location") "latitude") = false ∨
      isNumber (getField (getField body "location") "longitude") = false) :
    submitLocation body = (400, errorBody "invalid location") ∧
    (submitLocation body).1 ≠ 200 := by
  have hcond : (truthy (getField body "location") = false
      ∨ isNumber (getField (getField body "location") "latitude") = false
      ∨ isNumber (getField (getField body "location") "longitude") = false) := by
    rcases hloc with h | h | h
    · left; rw [h]; rfl
    · right; left; exact h
    · right; right; exact h
  rcases hcond with h | h | h <;>
    constructor <;> simp [submitLocation, hid, h]

/-- Witness for C5: a body with identifier `"12345"` and no `location`
field gets the 400 "invalid location" response. -/
theorem C5_witness :
    submitLocation (JsValue.object [("crate_int_id", JsValue.string "12345")])
      = (400, errorBody "invalid location") ∧
    (submitLocation
      (JsValue.object [("crate_int_id", JsValue.string "12345")])).1 ≠ 200 :=
  C5_invalid_location_rejected
    (JsValue.object [("crate_int_id", JsValue.string "12345")])
    (by decide) (Or.inl rfl)

/-- C6: for every well-formed request body — `crate_int_id` a string the
client validator accepts (non-empty, all digits), `location` an object
whose `latitude` and `longitude` are of type "number" — the handler
responds HTTP 200 with body `{ ok: true }`. -/
theorem C6_wellformed_accepted (body : JsValue) (s : String)
    (fields : List (String × JsValue))
    (hid : getField body "crate_int_id" = JsValue.string s)
    (hvalid : isValidCrateId (some s) = true)
    (hloc : getField body "location" = JsValue.object fields)
    (hlat : isNumber (getField (JsValue.object fields) "latitude") = true)
    (hlng : isNumber (getField (JsValue.object fields) "longitude") = true) :
    submitLocation body = (200, okBody) := by
  have hs : s ≠ "" := by
    intro he
    rw [he] at hvalid
    simp [isValidCrateId] at hvalid
  have htruthy : truthy (JsValue.string s) = true := by
    simp [truthy, hs]
  have hobj : truthy (JsValue.object fields) = true := rfl
  simp [submitLocation, hid, hloc, htruthy, hobj, hlat, hlng]

/-- Witness for C6: identifier `"12345"` with numeric coordinates is
accepted with 200 `{ ok: true }`. -/
theorem C6_witness :
    submitLocation (JsValue.object
      [("crate_int_id", JsValue.string "12345"),
       ("location", JsValue.object
         [("latitude", JsValue.number (JsNum.val 12)),
          ("longitude", JsValue.number (JsNum.val 77))])])
      = (200, okBody) :=
  C6_wellformed_accepted _ "12345" _ rfl (by decide) rfl rfl rfl

/-- C10: the server never checks the integer pattern on the identifier:
any truthy `crate_int_id` (for instance the non-integer string `"abc"`,
or a non-string) together with a `location` object whose `latitude` and
`longitude` have type "number" (including `NaN`) is answered 200
`{ ok: true }`. -/
theorem C10_no_pattern_check (body : JsValue)
    (fields : List (String × JsValue))
    (hid : truthy (getField body "crate_int_id") = true)
    (hloc : getField body "location" = JsValue.object fields)
    (hlat : isNumber (getField (JsValue.object fields) "latitude") = true)
    (hlng : isNumber (getField (JsValue.object fields) "longitude") = true) :
    submitLocation body = (200, okBody) := by
  have hobj : truthy (JsValue.object fields) = true := rfl
  simp [submitLocation, hid, hloc, hobj, hlat, hlng]

/-- Witness for C10: identifier `"abc"` (which `isValidCrateId`
rejects) with `latitude = NaN` still gets 200 `{ ok: true }`. -/
theorem C10_witness :
    submitLocation (JsValue.object
      [("crate_int_id", JsValue.string "abc"),
       ("location", JsValue.object
         [("latitude", JsValue.number JsNum.nan),
          ("longitude", JsValue.number (JsNum.val 0))])])
      = (200, okBody) ∧
    isValidCrateId (some "abc") = false :=
  ⟨C10_no_pattern_check _ _ (by decide) rfl rfl rfl, by decide⟩

/-! Theorems about the retry loop -/

/-- C2: with a transport answering HTTP 500 on every attempt (whatever
the response texts), `sendLocation` with `retries = 3` performs exactly
4 POST attempts (1 initial + 3 retries) and returns `{ ok: false }`
carrying the last observed error, the one recorded on the fourth
attempt. -/
theorem C2_always_500_four_attempts (texts : Nat → String) :
    (sendLocation (fun n => FetchOutcome.response 500 (texts n)) 3).attempts = 4 ∧
    (sendLocation (fun n => FetchOutcome.response 500 (texts n)) 3).result
      = SendResult.failure (some (httpError 500 (texts 3))) := by
  constructor <;> rfl

/-- C3: whatever the retry bound, if the first attempt gets a response
with status in 400–499, `sendLocation` returns failure with that error
after exactly 1 POST attempt and performs no backoff wait at all. -/
theorem C3_4xx_stops_after_one_attempt (transport : Nat → FetchOutcome)
    (retries status : Nat) (text : String)
    (h0 : transport 0 = FetchOutcome.response status text)
    (h4 : 400 ≤ status) (h5 : status < 500) :
    sendLocation transport retries
      = ⟨SendResult.failure (some (httpError status text)), 1, []⟩ := by
  have hne : ¬(200 ≤ status ∧ status < 300) := by omega
  have hce : 400 ≤ status ∧ status < 500 := ⟨h4, h5⟩
  simp [sendLocation, sendLoop, h0, hne, hce, Nat.zero_le]

/-- Witness for C3: a transport answering 404 with retry bound 3. -/
theorem C3_witness :
    sendLocation (fun _ => FetchOutcome.response 404 "") 3
      = ⟨SendResult.failure (some (httpError 404 "")), 1, []⟩ :=
  C3_4xx_stops_after_one_attempt (fun _ => FetchOutcome.response 404 "")
    3 404 "" rfl (by decide) (by decide)

/-- Helper for C7: from any starting `attempt`, the waits the loop
performs are `backoff (attempt + 1)`, `backoff (attempt + 2)`, ... — a
prefix of the schedule read off with `List.range`. -/
theorem sendLoop_delays_schedule (transport : Nat → FetchOutcome)
    (retries : Nat) :
    ∀ (fuel attempt : Nat) (lastErr : Option String),
      ∃ k, (sendLoop transport retries fuel attempt lastErr).delays
        = (List.range k).map (fun i => backoff (attempt + 1 + i)) := by
  intro fuel
  induction fuel with
  | zero => intro attempt lastErr; exact ⟨0, rfl⟩
  | succ fuel ih =>
    intro attempt lastErr
    by_cases hle : attempt ≤ retries
    · rw [sendLoop, if_pos hle]
      rcases htr : transport attempt with ⟨status, text⟩ | msg
      · dsimp only
        by_cases h2 : 200 ≤ status ∧ status < 300
        · rw [if_pos h2]; exact ⟨0, rfl⟩
        · rw [if_neg h2]
          by_cases h4 : 400 ≤ status ∧ status < 500
          · rw [if_pos h4]; exact ⟨0, rfl⟩
          · rw [if_neg h4]
            obtain ⟨k, hk⟩ := ih (attempt + 1) (some (httpError status text))
            refine ⟨k + 1, ?_⟩
            simp only [hk, List.range_succ_eq_map, List.map_cons, List.map_map]
            congr 1
            apply List.map_congr_left
            intro i _
            simp only [Function.comp_apply]
            congr 1
            omega
      · dsimp only
        obtain ⟨k, hk⟩ := ih (attempt + 1) (some msg)
        refine ⟨k + 1, ?_⟩
        simp only [hk, List.range_succ_eq_map, List.map_cons, List.map_map]
        congr 1
        apply List.map_congr_left
        intro i _
        simp only [Function.comp_apply]
        congr 1
        omega
    · rw [sendLoop, if_neg hle]; exact ⟨0, rfl⟩

/-- C7: every wait the loop performs follows the exponential-backoff
schedule: for any transport and retry bound, the `i`-th wait (0-based,
the one preceding retry `i + 1`) lasts `500 * 2 ^ (i + 1)` milliseconds
— 1000 ms, 2000 ms, 4000 ms, ... -/
theorem C7_exponential_backoff (transport : Nat → FetchOutcome)
    (retries i : Nat)
    (h : i < (sendLocation transport retries).delays.length) :
    (sendLocation transport retries).delays.get ⟨i, h⟩ = 500 * 2 ^ (i + 1) := by
  obtain ⟨k, hk⟩ := sendLoop_delays_schedule transport retries (retries + 1) 0 none
  have hk' : (sendLocation transport retries).delays
      = (List.range k).map (fun i => backoff (0 + 1 + i)) := hk
  have hval : (sendLocation transport retries).delays.get ⟨i, h⟩
      = backoff (0 + 1 + i) := by
    rw [List.get_of_eq hk' ⟨i, h⟩]
    simp
  have he : 0 + 1 + i = i + 1 := by omega
  rw [hval, backoff, he]

/-- Witness for C7: with a transport answering 500 forever and retry
bound 3, the first wait lasts 1000 ms. -/
theorem C7_witness :
    (sendLocation (fun _ => FetchOutcome.response 500 "") 3).delays.get
      ⟨0, by decide⟩ = 500 * 2 ^ (0 + 1) :=
  C7_exponential_backoff (fun _ => FetchOutcome.response 500 "") 3 0 (by decide)

/-- Helper for C9: the exception-level loop always returns `ok`, and
agrees with the total loop. -/
theorem sendLoopE_eq_ok (transport : Nat → FetchOutcome) (retries : Nat) :
    ∀ (fuel attempt : Nat) (lastErr : Option String),
      sendLoopE transport retries fuel attempt lastErr
        = Except.ok (sendLoop transport retries fuel attempt lastErr) := by
  intro fuel
  induction fuel with
  | zero => intro attempt lastErr; rfl
  | succ fuel ih =>
    intro attempt lastErr
    rw [sendLoopE, sendLoop]
    by_cases hle : attempt ≤ retries
    · rw [if_pos hle, if_pos hle]
      rcases htr : transport attempt with ⟨status, text⟩ | msg
      · simp only [fetchE, htr]
        by_cases h2 : 200 ≤ status ∧ status < 300
        · rw [if_pos h2, if_pos h2]
        · rw [if_neg h2, if_neg h2]
          by_cases h4 : 400 ≤ status ∧ status < 500
          · rw [if_pos h4, if_pos h4]
          · rw [if_neg h4, if_neg h4]
            simp only [ih]
      · simp only [fetchE, htr, ih]
    · rw [if_neg hle, if_neg hle]

/-- C9: for every transport behaviour (any mixture of responses and
thrown transport errors) and every retry bound, `sendLocation` never
lets an exception escape: the exception-level semantics always returns
`ok` with the very trace the total function computes, whose result is a
`SendResult` (`{ ok: true, status }` or `{ ok: false, error }`). -/
theorem C9_never_throws (transport : Nat → FetchOutcome) (retries : Nat) :
    sendLocationE transport retries
      = Except.ok (sendLocation transport retries) :=
  sendLoopE_eq_ok transport retries (retries + 1) 0 none

/-! Theorems about the identifier validator -/

/-- C8: `isValidCrateId` accepts exactly the non-empty strings of
decimal digits, and on the spelled-out cases: `"12345"` is accepted,
`"abc"`, `""` and `null` are rejected. -/
theorem C8_isValidCrateId_characterisation :
    (∀ s : String, isValidCrateId (some s) = true ↔
      s ≠ "" ∧ ∀ c ∈ s.data, c.isDigit) ∧
    isValidCrateId (some "12345") = true ∧
    isValidCrateId (some "abc") = false ∧
    isValidCrateId (some "") = false ∧
    isValidCrateId none = false := by
  refine ⟨?_, by decide, by decide, rfl, rfl⟩
  intro s
  by_cases hs : s = ""
  · subst hs; simp [isValidCrateId]
  · simp [isValidCrateId, hs, List.all_eq_true]

/-! Theorems about the pagehide flush -/

/-- Helper for C1: `setCoords` never touches the value the registered
closure captured. -/
theorem registeredCapture_foldl (ps : List Coords) (s : AppState) :
    (ps.foldl setCoords s).registeredCapture = s.registeredCapture := by
  induction ps generalizing s with
  | nil => rfl
  | cons p ps ih => simpa [setCoords] using ih (setCoords s p)

/-- C1: the `pagehide` flush never transmits anything, no matter how
many positions were captured after mount.  The registered `handleUnload`
closure reads the `coords` constant of the render in which the effect
ran (`useEffect` with `[]` deps), which is the initial `null`; every
later `setCoords` leaves that captured value untouched, so
`if (!coords) return;` always bails out and no beacon is ever sent —
contradicting the claim that the last captured report is transmitted. -/
theorem C1_pagehide_never_sends (ps : List Coords) (cid : String) :
    pagehide (appAfterCaptures ps) cid = none := by
  unfold pagehide appAfterCaptures
  rw [registeredCapture_foldl]
  rfl

end LocationCapture
